import Mathlib

/-!
Verification of the avatar mesh-generation and GLB-serialization core of the
repository, as a shallow embedding in Lean.

Byte buffers are modelled as `List Nat` (each element one byte).  The
JavaScript `DataView.setUint32(off, v, false)` / `getUint32(off, false)` calls
used by the encoder and validator are big-endian, and are modelled by
`uint32BE` / `readUint32BE`.  Machine 32-bit overflow is modelled with
`% 2 ^ 32`.  Fallible code is modelled with `Except` / sum-like result types.
-/

namespace Avatar

/-- Big-endian 4-byte encoding of a 32-bit value, as written by
`DataView.setUint32(off, n, false)` (the stored value is `n mod 2^32`). -/
def uint32BE (n : Nat) : List Nat :=
  let m := n % 2 ^ 32
  [m / 2 ^ 24 % 256, m / 2 ^ 16 % 256, m / 2 ^ 8 % 256, m % 256]

/-- Big-endian 4-byte read, as `DataView.getUint32(off, false)`.  Reads out of
bounds are handled separately by the caller model (`validateGLB`), which
mirrors the try/catch around the JavaScript reads. -/
def readUint32BE (buf : List Nat) (off : Nat) : Nat :=
  buf.getD off 0 * 2 ^ 24 + buf.getD (off + 1) 0 * 2 ^ 16 +
    buf.getD (off + 2) 0 * 2 ^ 8 + buf.getD (off + 3) 0

/-- Number of padding bytes appended to reach a 4-byte boundary:
`(4 - (len % 4)) % 4` from `createGLBBuffer`. -/
def pad4 (n : Nat) : Nat := (4 - n % 4) % 4

/-- `createGLBBuffer` from `src/js/face-detection.js` (lines 1068-1108),
applied to the UTF-8 bytes of `JSON.stringify(gltfData)`.

The JSON chunk is padded to a 4-byte boundary with zero bytes: the code
allocates `new Uint8Array(jsonBuffer.length + jsonPadding)` (zero-initialised)
and copies only `jsonBuffer` into it.  The 12-byte header stores the magic
`0x46546C67`, the version `2`, and a total length computed as
`12 + paddedJsonBuffer.length`; the 8-byte chunk header stores the padded
chunk length and the JSON chunk type `0x4E4F534A`.  All four-byte fields are
written with `setUint32(..., false)`, i.e. big-endian. -/
def createGLBBuffer (jsonBytes : List Nat) : List Nat :=
  let jsonPadding := pad4 jsonBytes.length
  let paddedJson := jsonBytes ++ List.replicate jsonPadding 0
  let header := uint32BE 0x46546C67 ++ uint32BE 2 ++ uint32BE (12 + paddedJson.length)
  let jsonChunkHeader := uint32BE paddedJson.length ++ uint32BE 0x4E4F534A
  header ++ jsonChunkHeader ++ paddedJson

/-- Result of `validateGLB`: `{valid: true, size}` or `{valid: false, error}`. -/
inductive GLBResult where
  | valid (size : Nat)
  | invalid (error : String)
deriving DecidableEq, Repr

/-- `validateGLB` from `src/backend/ai/glb-generator.js` (lines 223-250); the
copy in `src/js/face-detection.js` (lines 1159-1191) performs the identical
checks on `this.glbData.buffer`.  The whole body runs inside try/catch: a
`getUint32` read past the end of the buffer raises a `RangeError`, which the
catch clause converts into `{valid: false, error: message}`; the bounds tests
below model exactly those read failures. -/
def validateGLB (buf : List Nat) : GLBResult :=
  if 4 ≤ buf.length then
    if readUint32BE buf 0 ≠ 0x46546C67 then .invalid "Invalid GLB magic number"
    else if 8 ≤ buf.length then
      if readUint32BE buf 4 ≠ 2 then .invalid "Unsupported GLB version"
      else if 12 ≤ buf.length then
        if readUint32BE buf 8 ≠ buf.length then .invalid "Invalid GLB length"
        else .valid buf.length
      else .invalid "Offset is outside the bounds of the DataView"
    else .invalid "Offset is outside the bounds of the DataView"
  else .invalid "Offset is outside the bounds of the DataView"

theorem uint32BE_readback (m : Nat) (h : m < 2 ^ 32) (rest : List Nat) :
    readUint32BE (uint32BE m ++ rest) 0 = m := by
  simp only [uint32BE, readUint32BE]
  simp only [Nat.mod_eq_of_lt h]
  simp only [List.cons_append, List.nil_append, List.getD_cons_zero, List.getD_cons_succ]
  omega

theorem createGLBBuffer_length (jsonBytes : List Nat) :
    (createGLBBuffer jsonBytes).length =
      20 + (jsonBytes.length + pad4 jsonBytes.length) := by
  simp [createGLBBuffer, uint32BE]
  omega

theorem getD_append_right_eq (l r : List Nat) (n : Nat) :
    (l ++ r).getD (l.length + n) 0 = r.getD n 0 := by
  rw [List.getD_eq_getElem?_getD, List.getElem?_append_right (Nat.le_add_right _ _)]
  simp [List.getD_eq_getElem?_getD]

theorem readUint32BE_append (l rest : List Nat) (k : Nat) :
    readUint32BE (l ++ rest) (l.length + k) = readUint32BE rest k := by
  simp only [readUint32BE, Nat.add_assoc]
  rw [getD_append_right_eq, getD_append_right_eq, getD_append_right_eq, getD_append_right_eq]

theorem createGLBBuffer_assoc (jsonBytes : List Nat) :
    createGLBBuffer jsonBytes =
      uint32BE 0x46546C67 ++ (uint32BE 2 ++
        (uint32BE (12 + (jsonBytes.length + pad4 jsonBytes.length)) ++
          (uint32BE (jsonBytes.length + pad4 jsonBytes.length) ++ (uint32BE 0x4E4F534A ++
            (jsonBytes ++ List.replicate (pad4 jsonBytes.length) 0))))) := by
  simp [createGLBBuffer, List.append_assoc]

theorem uint32BE_length (m : Nat) : (uint32BE m).length = 4 := by
  simp [uint32BE]

theorem createGLBBuffer_read0 (jsonBytes : List Nat) :
    readUint32BE (createGLBBuffer jsonBytes) 0 = 0x46546C67 := by
  rw [createGLBBuffer_assoc, uint32BE_readback _ (by norm_num)]

theorem createGLBBuffer_read4 (jsonBytes : List Nat) :
    readUint32BE (createGLBBuffer jsonBytes) 4 = 2 := by
  rw [createGLBBuffer_assoc,
    show (4 : Nat) = (uint32BE 0x46546C67).length + 0 by rw [uint32BE_length],
    readUint32BE_append, uint32BE_readback _ (by norm_num)]

theorem createGLBBuffer_read8 (jsonBytes : List Nat)
    (h : 12 + (jsonBytes.length + pad4 jsonBytes.length) < 2 ^ 32) :
    readUint32BE (createGLBBuffer jsonBytes) 8 =
      12 + (jsonBytes.length + pad4 jsonBytes.length) := by
  rw [createGLBBuffer_assoc,
    show (8 : Nat) = (uint32BE 0x46546C67).length + 4 by rw [uint32BE_length],
    readUint32BE_append,
    show (4 : Nat) = (uint32BE 2).length + 0 by rw [uint32BE_length],
    readUint32BE_append, uint32BE_readback _ h]

/-- C1: the claim asserts `validateGLB (createGLBBuffer json)` reports
`valid = true`.  In fact the encoder writes `totalLength = 12 + paddedJsonLen`
into the header, omitting the 8-byte chunk header, while the buffer it builds
has `20 + paddedJsonLen` bytes; the repository's own validator therefore
rejects every encoder output with "Invalid GLB length". -/
theorem validateGLB_createGLBBuffer_invalid (jsonBytes : List Nat)
    (h : 12 + (jsonBytes.length + pad4 jsonBytes.length) < 2 ^ 32) :
    validateGLB (createGLBBuffer jsonBytes) = .invalid "Invalid GLB length" := by
  have h0 := createGLBBuffer_read0 jsonBytes
  have h4 := createGLBBuffer_read4 jsonBytes
  have h8 := createGLBBuffer_read8 jsonBytes h
  have hlen := createGLBBuffer_length jsonBytes
  have c1 : 4 ≤ 20 + (jsonBytes.length + pad4 jsonBytes.length) := by omega
  have c2 : 8 ≤ 20 + (jsonBytes.length + pad4 jsonBytes.length) := by omega
  have c3 : 12 ≤ 20 + (jsonBytes.length + pad4 jsonBytes.length) := by omega
  have c4 : 12 + (jsonBytes.length + pad4 jsonBytes.length) ≠
      20 + (jsonBytes.length + pad4 jsonBytes.length) := by omega
  simp [validateGLB, h0, h4, h8, hlen, c1, c2, c3, c4]

/-- C1 witness: evaluating the round-trip at the two-byte JSON document
`{}` (bytes `[123, 125]`). -/
theorem validateGLB_createGLBBuffer_invalid_witness :
    validateGLB (createGLBBuffer [123, 125]) = .invalid "Invalid GLB length" :=
  validateGLB_createGLBBuffer_invalid [123, 125] (by norm_num [pad4])

/-- C2: the claim asserts the `totalLength` field at byte offset 8 equals
`12 + (8 + paddedJsonLength)`.  The encoder actually writes
`12 + paddedJsonLength` there (the 8-byte chunk header is left out of the
sum), while the emitted buffer really is `12 + (8 + paddedJsonLength)` bytes
long. -/
theorem totalLength_field_omits_chunk_header (jsonBytes : List Nat)
    (h : 12 + (jsonBytes.length + pad4 jsonBytes.length) < 2 ^ 32) :
    readUint32BE (createGLBBuffer jsonBytes) 8 =
        12 + (jsonBytes.length + pad4 jsonBytes.length) ∧
      (createGLBBuffer jsonBytes).length =
        12 + (8 + (jsonBytes.length + pad4 jsonBytes.length)) ∧
      readUint32BE (createGLBBuffer jsonBytes) 8 ≠
        12 + (8 + (jsonBytes.length + pad4 jsonBytes.length)) := by
  refine ⟨createGLBBuffer_read8 jsonBytes h, ?_, ?_⟩
  · rw [createGLBBuffer_length]; omega
  · rw [createGLBBuffer_read8 jsonBytes h]; omega

/-- C2 witness: the header field of the encoding of `{}` holds 16, the buffer
has 24 bytes. -/
theorem totalLength_field_omits_chunk_header_witness :
    readUint32BE (createGLBBuffer [123, 125]) 8 = 12 + (2 + pad4 2) ∧
      (createGLBBuffer [123, 125]).length = 12 + (8 + (2 + pad4 2)) ∧
      readUint32BE (createGLBBuffer [123, 125]) 8 ≠ 12 + (8 + (2 + pad4 2)) :=
  totalLength_field_omits_chunk_header [123, 125] (by norm_num [pad4])

/-- C8 counterexample: encoding the JSON document `{}` (bytes `[123, 125]`)
produces two padding bytes; the first one, at buffer offset 22, is `0x00`,
not `0x20` as the claim states. -/
theorem json_padding_byte_is_zero_not_space :
    (createGLBBuffer [123, 125]).getD 22 0 = 0 ∧
      (createGLBBuffer [123, 125]).getD 22 0 ≠ 0x20 := by
  decide

/-- C8 amended: every padding byte appended to the JSON chunk has value
`0x00` (the zero-initialised `Uint8Array` is never overwritten there); the
encoder emits no BIN chunk at all. -/
theorem json_padding_bytes_are_zero (jsonBytes : List Nat) (i : Nat)
    (h1 : jsonBytes.length ≤ i)
    (h2 : i < jsonBytes.length + pad4 jsonBytes.length) :
    (createGLBBuffer jsonBytes).getD (20 + i) 0 = 0 := by
  have hpre : createGLBBuffer jsonBytes =
      (uint32BE 0x46546C67 ++ uint32BE 2 ++
        uint32BE (12 + (jsonBytes.length + pad4 jsonBytes.length)) ++
        uint32BE (jsonBytes.length + pad4 jsonBytes.length) ++ uint32BE 0x4E4F534A) ++
        (jsonBytes ++ List.replicate (pad4 jsonBytes.length) 0) := by
    simp [createGLBBuffer, List.append_assoc]
  rw [hpre, show (20 : Nat) + i =
      (uint32BE 0x46546C67 ++ uint32BE 2 ++
        uint32BE (12 + (jsonBytes.length + pad4 jsonBytes.length)) ++
        uint32BE (jsonBytes.length + pad4 jsonBytes.length) ++
        uint32BE 0x4E4F534A).length + i by simp [uint32BE],
    getD_append_right_eq,
    show i = jsonBytes.length + (i - jsonBytes.length) by omega,
    getD_append_right_eq]
  rw [List.getD_eq_getElem?_getD, List.getElem?_replicate]
  split <;> rfl

/-- C8 amended witness: the padding byte at offset 23 of the encoding of
`{}` is zero. -/
theorem json_padding_bytes_are_zero_witness :
    (createGLBBuffer [123, 125]).getD (20 + 3) 0 = 0 :=
  json_padding_bytes_are_zero [123, 125] 3 (by norm_num) (by norm_num [pad4])

/-! ## Mesh builder (`src/js/3d-mesh-generator.js`)

Landmark coordinates are modelled as rationals (the JavaScript numbers are
IEEE doubles; every constant in the mesh builder is exactly representable and
the claims below concern exact structural facts, not rounding). -/

/-- A detected landmark: normalized image coordinates plus relative depth.
`landmark.z || 0` in the source maps a missing/zero depth to `0`; here `z`
carries that value directly. -/
structure Landmark where
  x : ℚ
  y : ℚ
  z : ℚ
deriving DecidableEq, Repr

instance : Inhabited Landmark := ⟨⟨0, 0, 0⟩⟩

/-- The seven named regions of `createFaceIndices`, in object-entry order:
faceContour, leftEyebrow, rightEyebrow, leftEye, rightEye, nose, mouth. -/
def faceRegions : List (List Nat) :=
  [[10, 338, 297, 332, 284, 251, 389, 356, 454, 323, 361, 288, 397, 365, 379,
    378, 400, 377, 152, 148, 176, 149, 150, 136, 172, 58, 132, 93, 234, 127,
    162, 21, 54, 103, 67, 109],
   [70, 63, 105, 66, 107, 55, 65, 52, 53, 46],
   [296, 334, 293, 300, 276, 283, 282, 295, 285, 336],
   [33, 7, 163, 144, 145, 153, 154, 155, 133, 173, 157, 158, 159, 160, 161, 246],
   [362, 382, 381, 380, 374, 373, 390, 249, 263, 466, 388, 387, 386, 385, 384, 398],
   [1, 2, 5, 4, 6, 19, 20, 94, 125, 141, 235, 236, 3, 51, 48, 115, 131, 134,
    102, 49, 220, 305, 281, 360, 279, 331, 294, 358, 327, 326, 2, 97, 98, 129],
   [61, 84, 17, 314, 405, 320, 307, 375, 321, 308, 324, 318, 13, 82, 81, 80,
    78, 95, 88, 178, 87, 14, 317, 402, 318, 324, 308, 415, 310, 311, 312]]

/-- Fan triangulation of a region: `for (i = 1; i < len - 1; i++)` emits
`(v[0], v[i], v[i+1])`; re-indexed here with `j = i - 1`. -/
def fanTriangles (v : List Nat) : List Nat :=
  (List.range (v.length - 2)).flatMap fun j => [v.headD 0, v.getD (j + 1) 0, v.getD (j + 2) 0]

/-- The arithmetic progression `start, start + step, ...` of values `< stop`,
modelling `for (x = start; x < stop; x += step)`. -/
def strided (start stop step : Nat) : List Nat :=
  (List.range ((stop - start + (step - 1)) / step)).map fun a => start + step * a

/-- The closeness test of `addGeneralFaceTriangulation`:
`Math.sqrt(dx^2 + dy^2) < 0.2`, stated equivalently (both sides nonnegative,
squaring is monotone) as `dx^2 + dy^2 < 0.04`. -/
def closePair (p q : Landmark) : Bool :=
  (p.x - q.x) ^ 2 + (p.y - q.y) ^ 2 < 1 / 25

/-- `addGeneralFaceTriangulation`: stride-5 candidate triples `(i, j, k)` with
`k = j + 5`, emitted only when all three pairwise 2D distances are below 0.2.
The JavaScript loop bound `i < landmarks.length - step` is over possibly
negative numbers; with `Nat` truncated subtraction `strided` runs over the
same index sets. -/
def generalFaceTriangulation (lms : List Landmark) : List Nat :=
  let n := lms.length
  (strided 0 (n - 5) 5).flatMap fun i =>
    (strided (i + 5) (n - 5) 5).flatMap fun j =>
      let k := j + 5
      if k < n then
        if closePair (lms.getD i default) (lms.getD j default) &&
            closePair (lms.getD j default) (lms.getD k default) &&
            closePair (lms.getD k default) (lms.getD i default) then
          [i, j, k]
        else []
      else []

/-- `createFaceIndices`: named-region fan triangulation (regions filtered to
indices `< landmarks.length`, skipped when fewer than 3 survive) followed by
the stride-based proximity fallback. -/
def createFaceIndices (lms : List Landmark) : List Nat :=
  (faceRegions.flatMap fun region =>
    let valid := region.filter (· < lms.length)
    if 3 ≤ valid.length then fanTriangles valid else []) ++
    generalFaceTriangulation lms

/-- The geometry assembled by `createFaceGeometry`.  The per-landmark normals
pushed by the source are immediately overwritten by
`geometry.computeVertexNormals()` (line 69) and are therefore not modelled. -/
structure Geometry where
  vertices : List ℚ
  uvs : List ℚ
  indices : List Nat
deriving DecidableEq, Repr

/-- Vertex buffer of `createFaceGeometry`: per landmark,
`x' = (x - 0.5) * 2`, `y' = -(y - 0.5) * 2`, `z' = z`. -/
def meshVertices (lms : List Landmark) : List ℚ :=
  lms.flatMap fun lm => [(lm.x - 1 / 2) * 2, -(lm.y - 1 / 2) * 2, lm.z]

/-- UV buffer of `createFaceGeometry`: `(u, v) = (x, y)` unchanged. -/
def meshUVs (lms : List Landmark) : List ℚ :=
  lms.flatMap fun lm => [lm.x, lm.y]

/-- `createFaceGeometry` from `src/js/3d-mesh-generator.js` (lines 27-72).
The argument models `faceData.landmarks.front || left || right`: `none` is a
missing landmark set (the only falsy case, which throws
"No face landmarks available"); an *empty array* is truthy in JavaScript, so
`some []` flows straight through the guard. -/
def createFaceGeometry (primaryLandmarks : Option (List Landmark)) :
    Except String Geometry :=
  match primaryLandmarks with
  | none => .error "No face landmarks available"
  | some lms =>
      .ok { vertices := meshVertices lms, uvs := meshUVs lms,
            indices := createFaceIndices lms }

/-- C5: the claim asserts the mesh builder raises an input error on an empty
landmark array.  It does not: `[]` is truthy, so the guard is passed and an
empty geometry (0 vertices, 0 faces) is returned with no error; only a
missing landmark set raises. -/
theorem createFaceGeometry_empty_no_error :
    createFaceGeometry (some []) =
        .ok { vertices := [], uvs := [], indices := [] } ∧
      createFaceGeometry none = .error "No face landmarks available" := by
  constructor
  · rfl
  · rfl

theorem mem_strided_lt (x s t : Nat) (hx : x ∈ strided s t 5) : x < t := by
  simp only [strided, List.mem_map, List.mem_range] at hx
  obtain ⟨a, ha, rfl⟩ := hx
  omega

theorem mem_fanTriangles (x : Nat) (v : List Nat) (hv : 3 ≤ v.length)
    (hx : x ∈ fanTriangles v) : x ∈ v := by
  simp only [fanTriangles, List.mem_flatMap, List.mem_range] at hx
  obtain ⟨j, hj, hmem⟩ := hx
  simp only [List.mem_cons, List.not_mem_nil, or_false] at hmem
  rcases hmem with rfl | rfl | rfl
  · rcases v with _ | ⟨a, t⟩
    · simp at hv
    · exact List.mem_cons_self a t
  · have hlt : j + 1 < v.length := by omega
    rw [List.getD_eq_getElem v 0 hlt]
    exact List.getElem_mem hlt
  · have hlt : j + 2 < v.length := by omega
    rw [List.getD_eq_getElem v 0 hlt]
    exact List.getElem_mem hlt

theorem meshVertices_length (lms : List Landmark) :
    (meshVertices lms).length = 3 * lms.length := by
  induction lms with
  | nil => rfl
  | cons lm rest ih =>
      have h : meshVertices (lm :: rest) =
          [(lm.x - 1 / 2) * 2, -(lm.y - 1 / 2) * 2, lm.z] ++ meshVertices rest := rfl
      rw [h, List.length_append, ih]
      simp only [List.length_cons, List.length_nil, List.length_cons]
      omega

/-- C6: for 468 landmarks the mesh builder returns a geometry with
`468 * 3` vertex coordinates, and every index emitted by the named-region fan
triangulation and by the stride-based proximity fallback is `< 468`. -/
theorem mesh468_vertices_and_index_bounds (lms : List Landmark)
    (h : lms.length = 468) :
    ∃ g, createFaceGeometry (some lms) = .ok g ∧
      g.vertices.length = 468 * 3 ∧ ∀ idx ∈ g.indices, idx < 468 := by
  refine ⟨_, rfl, ?_, ?_⟩
  · rw [meshVertices_length, h]
  · intro idx hidx
    simp only [createFaceIndices, List.mem_append] at hidx
    rcases hidx with hnamed | hgen
    · simp only [List.mem_flatMap] at hnamed
      obtain ⟨region, _, hmem⟩ := hnamed
      by_cases hv : 3 ≤ (region.filter (· < lms.length)).length
      · rw [if_pos hv] at hmem
        have := mem_fanTriangles idx _ hv hmem
        have := List.of_mem_filter this
        rw [h] at this
        exact of_decide_eq_true this
      · rw [if_neg hv] at hmem
        simp at hmem
    · simp only [generalFaceTriangulation, List.mem_flatMap] at hgen
      obtain ⟨i, hi, j, hj, hmem⟩ := hgen
      have hi' := mem_strided_lt i 0 (lms.length - 5) hi
      have hj' := mem_strided_lt j (i + 5) (lms.length - 5) hj
      by_cases hk : j + 5 < lms.length
      · rw [if_pos hk] at hmem
        split at hmem
        · simp only [List.mem_cons, List.not_mem_nil, or_false] at hmem
          rcases hmem with rfl | rfl | rfl <;> omega
        · simp at hmem
      · rw [if_neg hk] at hmem
        simp at hmem

/-- C6 witness: 468 copies of the origin landmark. -/
theorem mesh468_vertices_and_index_bounds_witness :
    (List.replicate 468 (⟨0, 0, 0⟩ : Landmark)).length = 468 ∧
      ∃ g, createFaceGeometry (some (List.replicate 468 ⟨0, 0, 0⟩)) = .ok g ∧
        g.vertices.length = 468 * 3 ∧ ∀ idx ∈ g.indices, idx < 468 :=
  ⟨by rw [List.length_replicate], mesh468_vertices_and_index_bounds _ (by rw [List.length_replicate])⟩

/-! ## Expression deformer (`src/js/3d-mesh-generator.js`, lines 264-345)

`applyExpressions` reads `this.geometry.attributes.position.array`, copies it
into `originalPositions`, and then writes `originalPositions[yIndex] ± offset`
back into the *same* array in place.  The model below passes that mutable
array state explicitly: the function's result is the content of the geometry's
position array after the call. -/

/-- Mouth-corner landmark indices targeted by both `applySmile` and
`applyFrown`. -/
def mouthCornerIndices : List Nat := [61, 291]

/-- Eyebrow indices targeted by `applyRaisedEyebrows`. -/
def eyebrowIndices : List Nat :=
  [70, 63, 105, 66, 107, 55, 65, 52, 53, 46,
   296, 334, 293, 300, 276, 283, 282, 295, 285, 336]

/-- Eye indices targeted by `applySquint`. -/
def eyeIndices : List Nat :=
  [33, 7, 163, 144, 145, 153, 154, 155, 133, 173, 157, 158, 159, 160, 161, 246,
   362, 382, 381, 380, 374, 373, 390, 249, 263, 466, 388, 387, 386, 385, 384, 398]

/-- Boolean expression flags (`surprise` is accepted by the spec but has no
handler in `applyExpressions`, so it is not modelled). -/
structure ExpressionSet where
  smile : Bool
  frown : Bool
  raisedEyebrows : Bool
  squint : Bool
deriving DecidableEq, Repr

/-- One `applyX` pass: for each target index, when `index * 3 + 1` is in
bounds, overwrite the Y-slot with `originalPositions[yIndex] + offset`.  Note
the write is an overwrite of the current array using the snapshot `original`,
not an increment. -/
def applyOffset (original : List ℚ) (idxs : List Nat) (off : ℚ)
    (positions : List ℚ) : List ℚ :=
  idxs.foldl (fun pos idx =>
    if idx * 3 + 1 < pos.length then
      pos.set (idx * 3 + 1) (original.getD (idx * 3 + 1) 0 + off)
    else pos) positions

/-- `applyExpressions`: snapshot the current positions as `originalPositions`,
then run the enabled passes in source order (smile, frown, raisedEyebrows,
squint), each mutating the array.  Returns the array content after the call. -/
def applyExpressions (positions : List ℚ) (e : ExpressionSet) : List ℚ :=
  let original := positions
  let p1 := if e.smile then applyOffset original mouthCornerIndices (5 / 100) positions
            else positions
  let p2 := if e.frown then applyOffset original mouthCornerIndices (-(5 / 100)) p1
            else p1
  let p3 := if e.raisedEyebrows then applyOffset original eyebrowIndices (3 / 100) p2
            else p2
  let p4 := if e.squint then applyOffset original eyeIndices (-(2 / 100)) p3
            else p3
  p4

theorem getD_set_self (l : List ℚ) (i : Nat) (a : ℚ) (h : i < l.length) :
    (l.set i a).getD i 0 = a := by
  rw [List.getD_eq_getElem?_getD, List.getElem?_set_self h]
  rfl

theorem getD_set_ne (l : List ℚ) (i j : Nat) (a : ℚ) (h : i ≠ j) :
    (l.set i a).getD j 0 = l.getD j 0 := by
  rw [List.getD_eq_getElem?_getD, List.getElem?_set_ne h, ← List.getD_eq_getElem?_getD]

theorem applyOffset_mouth (original pos : List ℚ) (off : ℚ)
    (h : 875 < pos.length) :
    applyOffset original mouthCornerIndices off pos =
      (pos.set 184 (original.getD 184 0 + off)).set 874
        (original.getD 874 0 + off) := by
  simp only [applyOffset, mouthCornerIndices, List.foldl_cons, List.foldl_nil]
  rw [if_pos (by omega : 61 * 3 + 1 < pos.length)]
  rw [if_pos (by rw [List.length_set]; omega : 291 * 3 + 1 < (pos.set (61 * 3 + 1) _).length)]

theorem applyOffset_mouth_getD (original pos : List ℚ) (off : ℚ)
    (h : 875 < pos.length) :
    (applyOffset original mouthCornerIndices off pos).getD 184 0 =
        original.getD 184 0 + off ∧
      (applyOffset original mouthCornerIndices off pos).getD 874 0 =
        original.getD 874 0 + off ∧
      (applyOffset original mouthCornerIndices off pos).length = pos.length := by
  rw [applyOffset_mouth original pos off h]
  refine ⟨?_, ?_, ?_⟩
  · rw [getD_set_ne _ _ _ _ (by omega), getD_set_self _ _ _ (by omega)]
  · rw [getD_set_self _ _ _ (by simp [List.length_set]; omega)]
  · simp [List.length_set]

theorem applyExpressions_smile_frown (pos : List ℚ) (h : 875 < pos.length) :
    (applyExpressions pos ⟨true, true, false, false⟩).getD 184 0 =
        pos.getD 184 0 - 5 / 100 ∧
      (applyExpressions pos ⟨true, true, false, false⟩).getD 874 0 =
        pos.getD 874 0 - 5 / 100 := by
  have h1 := applyOffset_mouth_getD pos pos (5 / 100) h
  have h2 := applyOffset_mouth_getD pos
    (applyOffset pos mouthCornerIndices (5 / 100) pos) (-(5 / 100))
    (by rw [h1.2.2]; exact h)
  simp only [applyExpressions, if_true, if_false, Bool.false_eq_true]
  constructor
  · rw [h2.1]; ring
  · rw [h2.2.1]; ring

theorem applyExpressions_smile_only (pos : List ℚ) (h : 875 < pos.length) :
    (applyExpressions pos ⟨true, false, false, false⟩).getD 184 0 =
        pos.getD 184 0 + 5 / 100 ∧
      (applyExpressions pos ⟨true, false, false, false⟩).length = pos.length := by
  have h1 := applyOffset_mouth_getD pos pos (5 / 100) h
  simp only [applyExpressions, if_true, if_false, Bool.false_eq_true]
  exact ⟨h1.1, h1.2.2⟩

theorem getD_replicate_zero (n t : Nat) : (List.replicate n (0 : ℚ)).getD t 0 = 0 := by
  rw [List.getD_eq_getElem?_getD, List.getElem?_replicate]
  split <;> rfl

/-- C3: the claim asserts the deformer never mutates the base buffer and that
a second application yields the same result as the first.  In the code the
position array is deformed in place and each call snapshots the *current*
array as "original", so on a 292-vertex buffer of zeros a first smile call
changes the stored buffer (y-slot 184 becomes 1/20) and a second smile call
on the same geometry accumulates to 2/20: state is carried between calls
through the mutated buffer. -/
theorem applyExpressions_mutates_and_accumulates :
    applyExpressions (List.replicate 876 (0 : ℚ)) ⟨true, false, false, false⟩ ≠
        List.replicate 876 (0 : ℚ) ∧
      applyExpressions
          (applyExpressions (List.replicate 876 (0 : ℚ)) ⟨true, false, false, false⟩)
          ⟨true, false, false, false⟩ ≠
        applyExpressions (List.replicate 876 (0 : ℚ)) ⟨true, false, false, false⟩ := by
  have hlen : (875 : Nat) < (List.replicate 876 (0 : ℚ)).length := by
    rw [List.length_replicate]; omega
  have h1 := applyExpressions_smile_only (List.replicate 876 (0 : ℚ)) hlen
  have h2 := applyExpressions_smile_only
    (applyExpressions (List.replicate 876 (0 : ℚ)) ⟨true, false, false, false⟩)
    (by rw [h1.2, List.length_replicate]; omega)
  constructor
  · intro heq
    have := h1.1
    rw [heq, getD_replicate_zero] at this
    norm_num at this
  · intro heq
    have := h2.1
    rw [heq, h1.1, getD_replicate_zero] at this
    norm_num at this

/-- C4 counterexample: on a 292-vertex base of zeros with both smile and
frown set, the y-slot of vertex 61 ends at `-1/20`, not at the base value:
the net Y-offset is `-0.05`, not `0.0`. -/
theorem smile_frown_net_offset_not_zero :
    (applyExpressions (List.replicate 876 (0 : ℚ)) ⟨true, true, false, false⟩).getD 184 0 ≠
      (List.replicate 876 (0 : ℚ)).getD 184 0 := by
  have hlen : (875 : Nat) < (List.replicate 876 (0 : ℚ)).length := by
    rw [List.length_replicate]; omega
  have h := (applyExpressions_smile_frown (List.replicate 876 (0 : ℚ)) hlen).1
  rw [h, getD_replicate_zero]
  norm_num

/-- C4 amended: when smile and frown are both active, the offsets do not sum:
each pass overwrites the Y-slot with `original ± offset`, so the frown pass
(run second) wins and the net Y-offset of vertices 61 and 291 relative to the
un-deformed base is exactly `-0.05`. -/
theorem smile_frown_net_offset (pos : List ℚ) (h : 875 < pos.length) :
    (applyExpressions pos ⟨true, true, false, false⟩).getD (61 * 3 + 1) 0 =
        pos.getD (61 * 3 + 1) 0 - 5 / 100 ∧
      (applyExpressions pos ⟨true, true, false, false⟩).getD (291 * 3 + 1) 0 =
        pos.getD (291 * 3 + 1) 0 - 5 / 100 :=
  applyExpressions_smile_frown pos h

/-- C4 amended witness: evaluated on a 292-vertex base buffer of zeros. -/
theorem smile_frown_net_offset_witness :
    (applyExpressions (List.replicate 876 (0 : ℚ)) ⟨true, true, false, false⟩).getD
        (61 * 3 + 1) 0 =
      (List.replicate 876 (0 : ℚ)).getD (61 * 3 + 1) 0 - 5 / 100 :=
  (smile_frown_net_offset (List.replicate 876 (0 : ℚ))
    (by rw [List.length_replicate]; omega)).1

/-! ## Material synthesizer noise (`addSkinDetails`,
`src/js/3d-mesh-generator.js` lines 231-261)

The noise loop walks the RGBA byte array four bytes at a time and draws ONE
`Math.random()` value per pixel.  The RNG is modelled as a stream
`rand : Nat -> ℚ` (draw index to value in `[0, 1)`); pixel values are
rationals (the `Uint8ClampedArray` store additionally rounds to the nearest
integer, which is orthogonal to the per-channel structure at issue here).
The later blemish stamping draws radial gradients on the canvas context and
is then overwritten by `putImageData`; it does not touch the byte array and
is not modelled. -/

/-- `Math.max(0, Math.min(255, v))`. -/
def clampByte (v : ℚ) : ℚ := max 0 (min 255 v)

/-- The noise loop of `addSkinDetails`: per pixel, one draw
`noise = (rand - 0.5) * 20` applied to R, G and B alike; alpha untouched.
`p` is the index of the next draw.  A trailing fragment of fewer than four
bytes is left unchanged (the real array length is `512 * 512 * 4`). -/
def addNoiseAux (rand : Nat → ℚ) : Nat → List ℚ → List ℚ
  | p, r :: g :: b :: a :: rest =>
      let noise := (rand p - 1 / 2) * 20
      clampByte (r + noise) :: clampByte (g + noise) :: clampByte (b + noise) ::
        a :: addNoiseAux rand (p + 1) rest
  | _, l => l

/-- The noise loop of `addSkinDetails` applied to a whole RGBA pixel array. -/
def addSkinNoise (rand : Nat → ℚ) (data : List ℚ) : List ℚ :=
  addNoiseAux rand 0 data

/-- The claim's reading of the noise loop: independent per-channel noise, one
fresh draw for each of R, G and B.  This definition follows the claim's
wording and exists only to be compared against `addNoiseAux`, which is what
the code does. -/
def addNoiseIndepAux (rand : Nat → ℚ) : Nat → List ℚ → List ℚ
  | d, r :: g :: b :: a :: rest =>
      clampByte (r + (rand d - 1 / 2) * 20) ::
        clampByte (g + (rand (d + 1) - 1 / 2) * 20) ::
        clampByte (b + (rand (d + 2) - 1 / 2) * 20) ::
        a :: addNoiseIndepAux rand (d + 3) rest
  | _, l => l

/-- The claim's independent-noise loop applied to a whole RGBA pixel array. -/
def addSkinNoiseIndep (rand : Nat → ℚ) (data : List ℚ) : List ℚ :=
  addNoiseIndepAux rand 0 data

/-- C9 counterexample: with the RNG stream `0, 1, 1, ...` on the single gray
pixel `(128, 128, 128, 255)`, the code's loop shifts all three channels by
the same `-10`, while the claimed independent-per-channel loop would shift
R by `-10` but G and B by `+10`: the two disagree. -/
theorem addSkinNoise_not_independent :
    addSkinNoise (fun n => if n = 0 then 0 else 1) [128, 128, 128, 255] ≠
      addSkinNoiseIndep (fun n => if n = 0 then 0 else 1) [128, 128, 128, 255] := by
  have hL : addSkinNoise (fun n => if n = 0 then 0 else 1) [128, 128, 128, 255] =
      [118, 118, 118, 255] := by
    simp only [addSkinNoise, addNoiseAux, clampByte]
    norm_num [min_def, max_def]
  have hR : addSkinNoiseIndep (fun n => if n = 0 then 0 else 1) [128, 128, 128, 255] =
      [118, 138, 138, 255] := by
    simp only [addSkinNoiseIndep, addNoiseIndepAux, clampByte]
    norm_num [min_def, max_def]
  intro heq
  rw [hL, hR] at heq
  simp only [List.cons.injEq] at heq
  norm_num at heq

/-- C9 amended: the noise is a single shared value per pixel: one draw, with
value in `[-10, 10]` whenever the RNG yields values in `[0, 1]`, added to R,
G and B alike before clamping, and every clamped channel lies in
`[0, 255]`. -/
theorem addSkinNoise_shared_per_pixel (rand : Nat → ℚ)
    (hr : ∀ n, 0 ≤ rand n ∧ rand n ≤ 1) (p : Nat) (r g b a : ℚ)
    (rest : List ℚ) :
    ∃ noise : ℚ, |noise| ≤ 10 ∧
      addNoiseAux rand p (r :: g :: b :: a :: rest) =
        clampByte (r + noise) :: clampByte (g + noise) ::
          clampByte (b + noise) :: a :: addNoiseAux rand (p + 1) rest ∧
      ∀ v : ℚ, 0 ≤ clampByte (v + noise) ∧ clampByte (v + noise) ≤ 255 := by
  refine ⟨(rand p - 1 / 2) * 20, ?_, rfl, ?_⟩
  · obtain ⟨ha, hb⟩ := hr p
    rw [abs_le]
    constructor <;> nlinarith
  · intro v
    refine ⟨le_max_left 0 _, ?_⟩
    exact max_le (by norm_num) (min_le_left 255 _)

/-- C9 amended witness: the constant-1/2 RNG on one pixel. -/
theorem addSkinNoise_shared_per_pixel_witness :
    ∃ noise : ℚ, |noise| ≤ 10 ∧
      addNoiseAux (fun _ => 1 / 2) 0 ((100 : ℚ) :: 120 :: 140 :: 255 :: []) =
        clampByte (100 + noise) :: clampByte (120 + noise) ::
          clampByte (140 + noise) :: (255 : ℚ) :: addNoiseAux (fun _ => 1 / 2) 1 [] ∧
      ∀ v : ℚ, 0 ≤ clampByte (v + noise) ∧ clampByte (v + noise) ≤ 255 :=
  addSkinNoise_shared_per_pixel (fun _ => 1 / 2) (fun _ => by norm_num) 0 100 120 140 255 []

/-! ## Normal estimator (`calculateNormals`,
`src/backend/ai/glb-generator.js` lines 515-569)

JavaScript numbers are modelled as real numbers, `Math.sqrt` as `Real.sqrt`;
the definitions in this section are therefore noncomputable and the concrete
evaluations below go through `simp`/`norm_num`. -/

/-- The vertex triple `[vertices[idx*3], vertices[idx*3+1], vertices[idx*3+2]]`. -/
def vertAt (verts : List ℝ) (idx : Nat) : ℝ × ℝ × ℝ :=
  (verts.getD (idx * 3) 0, verts.getD (idx * 3 + 1) 0, verts.getD (idx * 3 + 2) 0)

/-- Per-triangle face normal: `cross(v2 - v1, v3 - v1)`, divided by its length
when `length > 0`, as in the accumulation loop of `calculateNormals`. -/
noncomputable def faceNormal (v1 v2 v3 : ℝ × ℝ × ℝ) : ℝ × ℝ × ℝ :=
  let e1 := (v2.1 - v1.1, v2.2.1 - v1.2.1, v2.2.2 - v1.2.2)
  let e2 := (v3.1 - v1.1, v3.2.1 - v1.2.1, v3.2.2 - v1.2.2)
  let n := (e1.2.1 * e2.2.2 - e1.2.2 * e2.2.1,
            e1.2.2 * e2.1 - e1.1 * e2.2.2,
            e1.1 * e2.2.1 - e1.2.1 * e2.1)
  let len := Real.sqrt (n.1 * n.1 + n.2.1 * n.2.1 + n.2.2 * n.2.2)
  if 0 < len then (n.1 / len, n.2.1 / len, n.2.2 / len) else n

/-- `normals[i] += v` at one slot. -/
noncomputable def addAt (l : List ℝ) (i : Nat) (v : ℝ) : List ℝ :=
  l.set i (l.getD i 0 + v)

/-- Accumulate one face normal into the three slots of vertex `idx`. -/
noncomputable def addTriple (normals : List ℝ) (idx : Nat) (n : ℝ × ℝ × ℝ) :
    List ℝ :=
  addAt (addAt (addAt normals (idx * 3) n.1) (idx * 3 + 1) n.2.1) (idx * 3 + 2) n.2.2

/-- `for (i = 0; i < faces.length; i += 3)` viewed as triples.  A trailing
fragment of one or two indices makes the loop body read `undefined` and write
to the non-index property `NaN`, leaving the array elements unchanged, so it
is dropped here. -/
def chunk3 : List Nat → List (Nat × Nat × Nat)
  | a :: b :: c :: rest => (a, b, c) :: chunk3 rest
  | _ => []

/-- The accumulation loop of `calculateNormals`: for each face `(a, b, c)`,
add the (normalized) face normal into the normal slots of all three
vertices. -/
noncomputable def accumulateFaces (verts : List ℝ) :
    List (Nat × Nat × Nat) → List ℝ → List ℝ
  | [], normals => normals
  | (a, b, c) :: rest, normals =>
      let n := faceNormal (vertAt verts a) (vertAt verts b) (vertAt verts c)
      accumulateFaces verts rest (addTriple (addTriple (addTriple normals a n) b n) c n)

/-- The final per-vertex pass of `calculateNormals`: divide each accumulated
triple by its length when `length > 0`, else leave it unchanged. -/
noncomputable def normalizeChunk (x y z : ℝ) : ℝ × ℝ × ℝ :=
  let len := Real.sqrt (x * x + y * y + z * z)
  if 0 < len then (x / len, y / len, z / len) else (x, y, z)

/-- `for (i = 0; i < normals.length; i += 3)` applying `normalizeChunk`. -/
noncomputable def normalizeFlat : List ℝ → List ℝ
  | x :: y :: z :: rest =>
      (normalizeChunk x y z).1 :: (normalizeChunk x y z).2.1 ::
        (normalizeChunk x y z).2.2 :: normalizeFlat rest
  | l => l

/-- `calculateNormals(vertices, faces)`: zero-filled accumulator, face
accumulation, then per-vertex normalization. -/
noncomputable def calculateNormals (verts : List ℝ) (faces : List Nat) : List ℝ :=
  normalizeFlat (accumulateFaces verts (chunk3 faces) (List.replicate verts.length 0))

/-- Normal triple of vertex `k` in a flat normal buffer. -/
def tripleAt (l : List ℝ) (k : Nat) : ℝ × ℝ × ℝ :=
  (l.getD (k * 3) 0, l.getD (k * 3 + 1) 0, l.getD (k * 3 + 2) 0)

theorem getD_set_self' {α : Type} {l : List α} {i : Nat} {a d : α}
    (h : i < l.length) : (l.set i a).getD i d = a := by
  rw [List.getD_eq_getElem?_getD, List.getElem?_set_self h]
  rfl

theorem getD_set_ne' {α : Type} {l : List α} {i j : Nat} {a d : α}
    (h : i ≠ j) : (l.set i a).getD j d = l.getD j d := by
  rw [List.getD_eq_getElem?_getD, List.getElem?_set_ne h, ← List.getD_eq_getElem?_getD]

theorem normalizeChunk_spec (x y z : ℝ) :
    normalizeChunk x y z = (0, 0, 0) ∨
      (normalizeChunk x y z).1 ^ 2 + (normalizeChunk x y z).2.1 ^ 2 +
        (normalizeChunk x y z).2.2 ^ 2 = 1 := by
  by_cases h : 0 < Real.sqrt (x * x + y * y + z * z)
  · right
    have hs : (0 : ℝ) < x * x + y * y + z * z := by
      rcases lt_or_le 0 (x * x + y * y + z * z) with hpos | hle
      · exact hpos
      · exfalso
        rw [Real.sqrt_eq_zero'.2 hle] at h
        exact lt_irrefl 0 h
    have hsqrt : Real.sqrt (x * x + y * y + z * z) *
        Real.sqrt (x * x + y * y + z * z) = x * x + y * y + z * z :=
      Real.mul_self_sqrt (by positivity)
    simp only [normalizeChunk, if_pos h]
    field_simp
    nlinarith [hsqrt]
  · left
    have h0 : Real.sqrt (x * x + y * y + z * z) = 0 :=
      le_antisymm (not_lt.1 h) (Real.sqrt_nonneg _)
    have hle : x * x + y * y + z * z ≤ 0 := Real.sqrt_eq_zero'.1 h0
    have hx : x = 0 := by nlinarith
    have hy : y = 0 := by nlinarith
    have hz : z = 0 := by nlinarith
    simp [normalizeChunk, hx, hy, hz]

theorem normalizeChunk_zero : normalizeChunk 0 0 0 = (0, 0, 0) := by
  simp [normalizeChunk]

theorem normalizeFlat_tripleAt (k : Nat) :
    ∀ l : List ℝ, k * 3 + 2 < l.length →
      tripleAt (normalizeFlat l) k =
        normalizeChunk (l.getD (k * 3) 0) (l.getD (k * 3 + 1) 0)
          (l.getD (k * 3 + 2) 0) := by
  induction k with
  | zero =>
      intro l h
      rcases l with _ | ⟨x, _ | ⟨y, _ | ⟨z, rest⟩⟩⟩ <;> simp at h
      simp [normalizeFlat, tripleAt, List.getD]
  | succ k ih =>
      intro l h
      rcases l with _ | ⟨x, _ | ⟨y, _ | ⟨z, rest⟩⟩⟩ <;> simp at h
      have hr : k * 3 + 2 < rest.length := by omega
      have e1 : (k + 1) * 3 = (k * 3 + 2) + 1 := by ring
      have e2 : (k + 1) * 3 + 1 = (k * 3 + 2) + 2 := by ring
      have e3 : (k + 1) * 3 + 2 = (k * 3 + 2) + 3 := by ring
      simp only [normalizeFlat, tripleAt, e1, e2, e3]
      simp only [List.getD_cons_succ]
      have := ih rest hr
      simp only [tripleAt] at this
      exact this

theorem addAt_length (l : List ℝ) (i : Nat) (v : ℝ) :
    (addAt l i v).length = l.length := by
  simp [addAt]

theorem addTriple_length (normals : List ℝ) (idx : Nat) (n : ℝ × ℝ × ℝ) :
    (addTriple normals idx n).length = normals.length := by
  simp [addTriple, addAt]

theorem accumulateFaces_length (verts : List ℝ) :
    ∀ (fs : List (Nat × Nat × Nat)) (normals : List ℝ),
      (accumulateFaces verts fs normals).length = normals.length := by
  intro fs
  induction fs with
  | nil => intro normals; rfl
  | cons f rest ih =>
      intro normals
      obtain ⟨a, b, c⟩ := f
      rw [accumulateFaces, ih]
      simp [addTriple_length]

theorem addTriple_getD_ne (normals : List ℝ) (idx : Nat) (n : ℝ × ℝ × ℝ)
    (t : Nat) (h1 : t ≠ idx * 3) (h2 : t ≠ idx * 3 + 1) (h3 : t ≠ idx * 3 + 2) :
    (addTriple normals idx n).getD t 0 = normals.getD t 0 := by
  simp only [addTriple, addAt]
  rw [getD_set_ne' (by omega), getD_set_ne' (by omega), getD_set_ne' (by omega)]

theorem accumulateFaces_getD_unreferenced (verts : List ℝ) (k t : Nat)
    (ht : t = k * 3 ∨ t = k * 3 + 1 ∨ t = k * 3 + 2) :
    ∀ (fs : List (Nat × Nat × Nat)) (normals : List ℝ),
      (∀ f ∈ fs, f.1 ≠ k ∧ f.2.1 ≠ k ∧ f.2.2 ≠ k) →
      (accumulateFaces verts fs normals).getD t 0 = normals.getD t 0 := by
  intro fs
  induction fs with
  | nil => intro normals _; rfl
  | cons f rest ih =>
      intro normals hf
      obtain ⟨a, b, c⟩ := f
      have hhead := hf (a, b, c) (List.mem_cons_self _ _)
      rw [accumulateFaces, ih _ (fun g hg => hf g (List.mem_cons_of_mem _ hg))]
      have ha : a ≠ k := hhead.1
      have hb : b ≠ k := hhead.2.1
      have hc : c ≠ k := hhead.2.2
      rw [addTriple_getD_ne _ _ _ _ (by omega) (by omega) (by omega),
        addTriple_getD_ne _ _ _ _ (by omega) (by omega) (by omega),
        addTriple_getD_ne _ _ _ _ (by omega) (by omega) (by omega)]

theorem mem_chunk3 :
    ∀ (l : List Nat) (t : Nat × Nat × Nat), t ∈ chunk3 l →
      t.1 ∈ l ∧ t.2.1 ∈ l ∧ t.2.2 ∈ l
  | a :: b :: c :: rest, t, ht => by
      rw [chunk3] at ht
      rcases List.mem_cons.1 ht with rfl | hmem
      · exact ⟨by simp, by simp, by simp⟩
      · have h := mem_chunk3 rest t hmem
        refine ⟨?_, ?_, ?_⟩ <;> simp [h.1, h.2.1, h.2.2]
  | [], t, ht => by simp [chunk3] at ht
  | [a], t, ht => by simp [chunk3] at ht
  | [a, b], t, ht => by simp [chunk3] at ht

/-- C7 counterexample: one vertex `(1, 2, 3)` and no triangles.  The vertex
is referenced by zero triangles; its accumulated normal has zero length and
is left unchanged at `(0, 0, 0)`, not assigned the claimed default
`(0, 0, 1)`: the z-component stays `0`. -/
theorem unreferenced_normal_not_default :
    calculateNormals [1, 2, 3] [] = [0, 0, 0] ∧
      (calculateNormals [1, 2, 3] []).getD 2 0 ≠ 1 := by
  have h : calculateNormals [1, 2, 3] [] = [0, 0, 0] := by
    show normalizeFlat (accumulateFaces [1, 2, 3] (chunk3 []) _) = _
    rw [show chunk3 [] = [] from rfl]
    rw [show accumulateFaces [1, 2, 3] [] (List.replicate ([1, 2, 3] : List ℝ).length 0) =
      List.replicate 3 0 from rfl]
    show normalizeFlat [0, 0, 0] = [0, 0, 0]
    rw [show normalizeFlat [(0 : ℝ), 0, 0] =
      (normalizeChunk 0 0 0).1 :: (normalizeChunk 0 0 0).2.1 ::
        (normalizeChunk 0 0 0).2.2 :: normalizeFlat [] from rfl]
    rw [normalizeChunk_zero]
    rfl
  refine ⟨h, ?_⟩
  rw [h]
  norm_num

/-- C7 amended: in exact real arithmetic every per-vertex normal produced by
`calculateNormals` is either exactly unit length (squared norm `1`) or
exactly `(0, 0, 0)`; in particular a vertex referenced by zero triangles
keeps the zero vector, not the claimed `(0, 0, 1)` default. -/
theorem calculateNormals_unit_or_zero (verts : List ℝ) (faces : List Nat)
    (k : Nat) (hk : k * 3 + 2 < verts.length) :
    (tripleAt (calculateNormals verts faces) k = (0, 0, 0) ∨
      (tripleAt (calculateNormals verts faces) k).1 ^ 2 +
        (tripleAt (calculateNormals verts faces) k).2.1 ^ 2 +
        (tripleAt (calculateNormals verts faces) k).2.2 ^ 2 = 1) ∧
    ((∀ f ∈ faces, f ≠ k) → tripleAt (calculateNormals verts faces) k = (0, 0, 0)) := by
  have hacc : (accumulateFaces verts (chunk3 faces)
      (List.replicate verts.length 0)).length = verts.length := by
    rw [accumulateFaces_length, List.length_replicate]
  have htrip := normalizeFlat_tripleAt k
    (accumulateFaces verts (chunk3 faces) (List.replicate verts.length 0))
    (by rw [hacc]; exact hk)
  constructor
  · rw [calculateNormals, htrip]
    exact normalizeChunk_spec _ _ _
  · intro hunref
    have hmem : ∀ f ∈ chunk3 faces, f.1 ≠ k ∧ f.2.1 ≠ k ∧ f.2.2 ≠ k := by
      intro f hf
      have h := mem_chunk3 faces f hf
      exact ⟨hunref _ h.1, hunref _ h.2.1, hunref _ h.2.2⟩
    have h0 : ∀ t, (t = k * 3 ∨ t = k * 3 + 1 ∨ t = k * 3 + 2) →
        (accumulateFaces verts (chunk3 faces)
          (List.replicate verts.length 0)).getD t 0 = 0 := by
      intro t htk
      rw [accumulateFaces_getD_unreferenced verts k t htk _ _ hmem]
      rw [List.getD_eq_getElem?_getD, List.getElem?_replicate]
      split <;> rfl
    rw [calculateNormals, htrip, h0 _ (Or.inl rfl), h0 _ (Or.inr (Or.inl rfl)),
      h0 _ (Or.inr (Or.inr rfl)), normalizeChunk_zero]

/-- C7 amended witness: one vertex, no faces, vertex 0. -/
theorem calculateNormals_unit_or_zero_witness :
    (tripleAt (calculateNormals [1, 2, 3] []) 0 = (0, 0, 0) ∨
      (tripleAt (calculateNormals [1, 2, 3] []) 0).1 ^ 2 +
        (tripleAt (calculateNormals [1, 2, 3] []) 0).2.1 ^ 2 +
        (tripleAt (calculateNormals [1, 2, 3] []) 0).2.2 ^ 2 = 1) ∧
    ((∀ f ∈ ([] : List Nat), f ≠ 0) → tripleAt (calculateNormals [1, 2, 3] []) 0 = (0, 0, 0)) :=
  calculateNormals_unit_or_zero [1, 2, 3] [] 0 (by norm_num)

/-- C10: the GLB validator is total: on every byte buffer it returns either
`valid` with the buffer size or `invalid` with a non-empty error message; the
out-of-bounds reads on short buffers are caught by the try/catch and surface
as the latter. -/
theorem validateGLB_total (buf : List Nat) :
    validateGLB buf = .valid buf.length ∨
      ∃ e, validateGLB buf = .invalid e ∧ e ≠ "" := by
  unfold validateGLB
  split
  · split
    · exact Or.inr ⟨_, rfl, by decide⟩
    · split
      · split
        · exact Or.inr ⟨_, rfl, by decide⟩
        · split
          · split
            · exact Or.inr ⟨_, rfl, by decide⟩
            · exact Or.inl rfl
          · exact Or.inr ⟨_, rfl, by decide⟩
      · exact Or.inr ⟨_, rfl, by decide⟩
  · exact Or.inr ⟨_, rfl, by decide⟩

end Avatar
